import Mathlib

/-!
Stat server (knative.dev/serving/pkg/autoscaler/statserver/server.go).

A shallow embedding of the WebSocket stat server: the per-frame dispatch and
receive loop of `Server.Handler`, the per-connection watcher, `ListenAndServe`,
`Shutdown`, and a step relation over the goroutines that share one `Server`.

Conventions of the embedding.

* A `chan struct{}` that is only ever closed is a `Bool`: `true` means closed.
  Receiving from it blocks while it is `false`.
* `statsCh` is the sequence of messages handed to the consumer so far, oldest
  first.  The send `s.statsCh <- sm` is blocking; a send that completes appends.
* The logger is the sequence of entries written so far.  Format verbs are kept
  as written in the source, the formatted arguments are not rendered.
* Functions of other packages (`metrics`, `network`, `encoding/json`,
  `gorilla/websocket`, `net/http`) whose code is not part of this file are
  parameters: their results are inputs of the embedded function.
-/

namespace Statserver

/-! ## Constants -/

/-- Line 34: the close code sent on shutdown. -/
def closeCodeServiceRestart : Nat := 1012

/-- Value of websocket.TextMessage. -/
def TextMessage : Nat := 1

/-- Value of websocket.BinaryMessage. -/
def BinaryMessage : Nat := 2

/-- Value of websocket.CloseMessage. -/
def CloseMessage : Nat := 8

/-- Value of websocket.CloseAbnormalClosure. -/
def CloseAbnormalClosure : Nat := 1006

/-- Value of http.StatusOK. -/
def StatusOK : Nat := 200

/-! ## Data model -/

/-- Non-nil values of the Go error interface, as far as the code tells them apart. -/
inductive GoError where
  | ErrServerClosed
  | DeadlineExceeded
  | CloseError (code : Nat)
  | other (id : Nat)
  deriving DecidableEq, Repr

/-- The check websocket.IsCloseError(err, code) for a single code: the error is a
close error carrying that code. -/
def IsCloseError (err : GoError) (code : Nat) : Bool :=
  match err with
  | .CloseError c => c == code
  | _ => false

/-- Severity of a log entry (zap levels used by the server). -/
inductive Level where
  | debug
  | info
  | warn
  | error
  deriving DecidableEq, Repr

/-- One entry written through s.logger. -/
structure LogEntry where
  level : Level
  msg : String
  deriving DecidableEq, Repr

/-- One frame returned by conn.ReadMessage: message type and payload bytes. -/
structure Frame where
  messageType : Nat
  msg : List Nat
  deriving DecidableEq, Repr

/-- An inbound HTTP request, as far as the handler looks at it. -/
structure Request where
  method : String
  path : String
  header : List (String × String)
  deriving DecidableEq, Repr

/-- The payload built by websocket.FormatCloseMessage(code, text). -/
structure ClosePayload where
  code : Nat
  text : String
  deriving DecidableEq, Repr

/-- One call of conn.WriteMessage(messageType, data); ok records whether the
call returned a nil error. -/
structure WriteCall where
  messageType : Nat
  data : ClosePayload
  ok : Bool
  deriving DecidableEq, Repr

/-- The result of websocket.FormatCloseMessage. -/
def FormatCloseMessage (closeCode : Nat) (text : String) : ClosePayload :=
  { code := closeCode, text := text }

/-- Functions of packages metrics, network and encoding/json used by the
handler.  S is the payload type behind the pointer field Stat of a wire record,
W the wire record (WireStatMessage), M the canonical StatMessage. -/
structure Env (S W M : Type) where
  /-- The predicate network.IsKubeletProbe. -/
  IsKubeletProbe : Request → Bool
  /-- The method WireStatMessages.Unmarshal, returning the field Messages. -/
  Unmarshal : List Nat → Except GoError (List W)
  /-- The field Stat of a wire record; none is the nil pointer. -/
  Stat : W → Option S
  /-- The method WireStatMessage.ToStatMessage. -/
  ToStatMessage : W → M
  /-- The call json.NewDecoder(bytes.NewBuffer(msg)).Decode(&sm). -/
  JSONDecode : List Nat → Except GoError M

/-- One call made on the socket of a connection by its watcher. -/
inductive SockCall where
  /-- A call of conn.WriteMessage (line 132). -/
  | write (call : WriteCall)
  /-- A call of conn.Close() (line 136). -/
  | close
  deriving DecidableEq, Repr

/-- Per-connection state created by a successful upgrade (lines 117-140). -/
structure Conn where
  /-- Whether handlerCh has been closed (line 154). -/
  handlerCh : Bool
  /-- Whether the receive loop has returned (line 155). -/
  loopExited : Bool
  /-- Whether the watcher goroutine has run to completion. -/
  watcherExited : Bool
  /-- The calls of conn.WriteMessage and conn.Close() made so far, oldest first. -/
  calls : List SockCall
  /-- How many times this watcher has called s.openClients.Done(). -/
  doneCalls : Nat
  deriving DecidableEq, Repr

/-- The connection right after line 125: handlerCh made, nothing else happened. -/
def Conn.fresh : Conn :=
  { handlerCh := false, loopExited := false, watcherExited := false,
    calls := [], doneCalls := 0 }

/-- Whether conn.Close() has been called (line 136). -/
def Conn.closed (c : Conn) : Bool :=
  decide (SockCall.close ∈ c.calls)

/-- The calls of conn.WriteMessage made so far, oldest first. -/
def Conn.written (c : Conn) : List WriteCall :=
  c.calls.filterMap fun k =>
    match k with
    | .write call => some call
    | .close => none

/-- The Server struct (lines 37-45) together with what the HTTP layer observes
of its handlers. -/
structure Server (M : Type) where
  addr : String
  /-- Closed by serve (line 93). -/
  servingCh : Bool
  /-- Closed by Shutdown (line 200). -/
  stopCh : Bool
  /-- Messages handed to the consumer of statsCh, oldest first. -/
  statsCh : List M
  /-- Counter of the WaitGroup openClients. -/
  openClients : Nat
  /-- Entries written through logger. -/
  logs : List LogEntry
  /-- Status codes written by w.WriteHeader. -/
  responses : List Nat
  /-- Number of calls of upgrader.Upgrade. -/
  upgrades : Nat
  /-- Connections created by successful upgrades, in creation order. -/
  conns : List Conn

/-- Outcome of running a piece of code: it returns, it blocks for ever in the
given state, or it panics. -/
inductive Run (α : Type) where
  | ok (a : α)
  | blocked
  | panic (msg : String)

/-- Lines 48-66: a new server; both channels are freshly made, nothing was sent. -/
def New {M : Type} (statsServerAddr : String) : Server M :=
  { addr := statsServerAddr, servingCh := false, stopCh := false, statsCh := [],
    openClients := 0, logs := [], responses := [], upgrades := 0, conns := [] }

/-- A call of a method of s.logger. -/
def Server.log {M : Type} (s : Server M) (level : Level) (msg : String) : Server M :=
  { s with logs := s.logs ++ [{ level := level, msg := msg }] }

/-- The statement s.statsCh <- sm, once the consumer has taken the message. -/
def Server.send {M : Type} (s : Server M) (sm : M) : Server M :=
  { s with statsCh := s.statsCh ++ [sm] }

/-! ## Receive loop (lines 144-192) -/

/-- Lines 168-177: the loop over wsms.Messages. -/
def forwardBatch {S W M : Type} (E : Env S W M) (s : Server M) : List W → Server M
  | [] => s
  | wsm :: rest =>
    match E.Stat wsm with
    | none => forwardBatch E s rest
    | some _ =>
      let sm := E.ToStatMessage wsm
      let s := s.log .debug "Received stat message: %+v"
      forwardBatch E (s.send sm) rest

/-- Lines 160-191: the switch on messageType for one frame read without error. -/
def handleFrame {S W M : Type} (E : Env S W M) (s : Server M) (f : Frame) : Server M :=
  if f.messageType = BinaryMessage then
    match E.Unmarshal f.msg with
    | .error _ => s.log .error "Failed to unmarshal the object"
    | .ok wsms => forwardBatch E s wsms
  else if f.messageType = TextMessage then
    match E.JSONDecode f.msg with
    | .error _ => s.log .error "Failed to decode json"
    | .ok sm => (s.log .debug "Received stat message: %+v").send sm
  else
    s.log .error "Dropping unknown message type."

/-- Lines 146-156: the exit of the loop of connection i on a read error. -/
def loopExit {M : Type} (s : Server M) (i : Nat) (c : Conn) (err : GoError) : Server M :=
  let s :=
    if IsCloseError err CloseAbnormalClosure then s.log .debug "Handler disconnected"
    else s.log .error "Handler exiting on error: %#v"
  { s with conns := s.conns.set i { c with handlerCh := true, loopExited := true } }

/-- One iteration of the loop of lines 144-192 for connection i, given what
conn.ReadMessage returned.  Blocked when there is no such running loop. -/
def readStep {S W M : Type} (E : Env S W M) (s : Server M) (i : Nat)
    (res : Except GoError Frame) : Run (Server M) :=
  match s.conns[i]? with
  | none => .blocked
  | some c =>
    if c.loopExited then .blocked
    else
      match res with
      | .error err => .ok (loopExit s i c err)
      | .ok f => .ok (handleFrame E s f)

/-- The loop of lines 144-192 for connection i, run on the successive results of
conn.ReadMessage.  It returns at the first read error; when the results run out
the loop is waiting in ReadMessage. -/
def receiveLoop {S W M : Type} (E : Env S W M) (s : Server M) (i : Nat) :
    List (Except GoError Frame) → Server M
  | [] => s
  | res :: rest =>
    match readStep E s i res with
    | .ok s1 =>
      match res with
      | .error _ => s1
      | .ok _ => receiveLoop E s1 i rest
    | _ => s

/-! ## Handler entry (lines 100-142) -/

/-- Lines 100-107. -/
def handleHealthz {S W M : Type} (E : Env S W M) (s : Server M) (r : Request) :
    Server M × Bool :=
  if E.IsKubeletProbe r then
    ({ s with responses := s.responses ++ [StatusOK] }, true)
  else
    (s, false)

/-- Lines 112-142 of Handler: everything before the receive loop.  The Bool is
whether upgrader.Upgrade succeeds (the error reply that Upgrade itself writes
when it fails is not recorded).  Returns the index of the connection whose
receive loop is entered, or none when Handler has returned. -/
def handlerEnter {S W M : Type} (E : Env S W M) (s : Server M) (r : Request)
    (upgradeOk : Bool) : Server M × Option Nat :=
  let s := s.log .debug "Handle entered"
  match handleHealthz E s r with
  | (s, true) => (s, none)
  | (s, false) =>
    let s := { s with upgrades := s.upgrades + 1 }
    if upgradeOk = false then
      (s.log .error "error upgrading websocket", none)
    else
      let i := s.conns.length
      let s := { s with openClients := s.openClients + 1 }
      let s := { s with conns := s.conns ++ [Conn.fresh] }
      (s.log .debug "Connection upgraded to WebSocket. Entering receive loop.", some i)

/-- Lines 111-193: Handler run on its own goroutine up to the return of its
receive loop, on the given results of conn.ReadMessage. -/
def Handler {S W M : Type} (E : Env S W M) (s : Server M) (r : Request)
    (upgradeOk : Bool) (reads : List (Except GoError Frame)) : Server M :=
  match handlerEnter E s r upgradeOk with
  | (s, none) => s
  | (s, some i) => receiveLoop E s i reads

/-! ## Watcher goroutine (lines 126-140) -/

/-- The two receive cases of the select of lines 128-139. -/
inductive Signal where
  | stop
  | handler
  deriving DecidableEq, Repr

/-- A Go select over two receive cases a and b: it blocks (none) while neither
channel is ready, takes the ready case when exactly one is, and picks by the
coin when both are. -/
def select2 {α : Type} (a b : α) (aReady bReady coin : Bool) : Option α :=
  match aReady, bReady with
  | false, false => none
  | true, false => some a
  | false, true => some b
  | true, true => some (if coin then a else b)

/-- Lines 129-138: the body of the case the select took.  The Bool is whether
conn.WriteMessage returns a nil error. -/
def watcherBody {M : Type} (s : Server M) (c : Conn) (sig : Signal) (writeOk : Bool) :
    Server M × Conn :=
  match sig with
  | .stop =>
    let s := s.log .debug "Sending close message to client"
    let data := FormatCloseMessage closeCodeServiceRestart "Restarting"
    let call : WriteCall := { messageType := CloseMessage, data := data, ok := writeOk }
    let c := { c with calls := c.calls ++ [SockCall.write call] }
    let s := if writeOk = false then
        s.log .error "Failed to send close message to client: %#v"
      else s
    (s, { c with calls := c.calls ++ [SockCall.close] })
  | .handler => (s.log .debug "Handler exit complete", c)

/-- Lines 128-139: the select of the watcher of connection c and the body of the
case taken; none while the watcher is blocked in the select. -/
def watcherRun {M : Type} (s : Server M) (c : Conn) (writeOk coin : Bool) :
    Option (Server M × Conn) :=
  match select2 Signal.stop Signal.handler s.stopCh c.handlerCh coin with
  | none => none
  | some sig => some (watcherBody s c sig writeOk)

/-- Lines 126-140: the watcher goroutine of connection i, from its select to
the deferred s.openClients.Done(). -/
def watcherStep {M : Type} (s : Server M) (i : Nat) (writeOk coin : Bool) :
    Run (Server M) :=
  match s.conns[i]? with
  | none => .blocked
  | some c =>
    if c.watcherExited then .blocked
    else
      match watcherRun s c writeOk coin with
      | none => .blocked
      | some (s, c) =>
        if s.openClients = 0 then .panic "sync: negative WaitGroup counter"
        else
          .ok { s with
            openClients := s.openClients - 1
            conns := s.conns.set i
              { c with watcherExited := true, doneCalls := c.doneCalls + 1 } }

/-! ## ListenAndServe (lines 76-98) -/

/-- The listener returned by net.Listen. -/
structure Listener where
  addr : String
  deriving DecidableEq, Repr

/-- Lines 87-90.  The result of net.Listen is an input. -/
def listen {M : Type} (s : Server M) (bind : Except GoError Listener) :
    Server M × Except GoError Listener :=
  (s.log .info "Starting", bind)

/-- Line 93: close(s.servingCh).  Closing a closed channel panics. -/
def serveEnter {M : Type} (s : Server M) : Run (Server M) :=
  if s.servingCh then .panic "close of closed channel"
  else .ok { s with servingCh := true }

/-- Lines 92-98.  The error returned by s.wsSrv.Serve is an input; net/http
documents that Serve always returns a non-nil error. -/
def serve {M : Type} (s : Server M) (serveErr : GoError) :
    Run (Server M × Option GoError) :=
  match serveEnter s with
  | .ok s =>
    if serveErr ≠ GoError.ErrServerClosed then .ok (s, some serveErr)
    else .ok (s, none)
  | .blocked => .blocked
  | .panic msg => .panic msg

/-- Lines 79-85.  The returned Option is the Go error, none being nil. -/
def ListenAndServe {M : Type} (s : Server M) (bind : Except GoError Listener)
    (serveErr : GoError) : Run (Server M × Option GoError) :=
  match listen s bind with
  | (s, .error err) => .ok (s, some err)
  | (s, .ok _) => serve s serveErr

/-! ## Shutdown (lines 195-224) -/

/-- Lines 197-200: wait for servingCh, log, close(s.stopCh). -/
def shutdownStop {M : Type} (s : Server M) : Run (Server M) :=
  if s.servingCh = false then .blocked
  else
    let s := s.log .info "Shutting down"
    if s.stopCh then .panic "close of closed channel"
    else .ok { s with stopCh := true }

/-- The two receive cases of the select of lines 219-224. -/
inductive DrainCase where
  | done
  | ctxDone
  deriving DecidableEq, Repr

/-- What the environment does during lines 201-224 of one run of Shutdown.
Instants are points on one clock. -/
structure DrainEnv where
  /-- The error returned by s.wsSrv.Shutdown(ctx), none being nil. -/
  closeErr : Option GoError
  /-- The instant at which s.wsSrv.Shutdown(ctx) returns. -/
  closeReturn : Nat
  /-- The instant at which ctx expires (start plus timeout). -/
  deadline : Nat
  /-- The instant from which openClients is zero, none when it never is. -/
  zeroAt : Option Nat
  /-- The pick of the select when both of its cases are ready. -/
  coin : Bool
  deriving DecidableEq, Repr

/-- The instant at which the select of lines 219-224 proceeds: it is entered
when wsSrv.Shutdown has returned and waits for the earlier of its two events. -/
def DrainEnv.wake (x : DrainEnv) : Nat :=
  max x.closeReturn
    (match x.zeroAt with
     | some z => min z x.deadline
     | none => x.deadline)

/-- Whether done is closed at instant t: openClients.Wait() has returned. -/
def DrainEnv.doneReady (x : DrainEnv) (t : Nat) : Bool :=
  match x.zeroAt with
  | some z => decide (z ≤ t)
  | none => false

/-- Whether ctx.Done() is closed at instant t. -/
def DrainEnv.ctxReady (x : DrainEnv) (t : Nat) : Bool :=
  decide (x.deadline ≤ t)

/-- Lines 204-210: the log written for the result of s.wsSrv.Shutdown(ctx). -/
def logCloseErr {M : Type} (s : Server M) (err : Option GoError) : Server M :=
  match err with
  | none => s
  | some e =>
    if e = GoError.DeadlineExceeded then s.log .warn "Shutdown timed out"
    else s.log .error "Shutdown failed."

/-- Lines 201-224: close the listener, then wait for openClients or the
deadline.  Blocked only if neither case of the select ever becomes ready. -/
def shutdownDrain {M : Type} (s : Server M) (x : DrainEnv) : Run (Server M) :=
  let s := logCloseErr s x.closeErr
  match select2 DrainCase.done DrainCase.ctxDone
      (x.doneReady x.wake) (x.ctxReady x.wake) x.coin with
  | none => .blocked
  | some .done => .ok (s.log .info "Shutdown complete")
  | some .ctxDone => .ok (s.log .warn "Shutdown timed out")

/-- Lines 196-225: Shutdown(timeout) in one piece. -/
def Shutdown {M : Type} (s : Server M) (x : DrainEnv) : Run (Server M) :=
  match shutdownStop s with
  | .ok s => shutdownDrain s x
  | .blocked => .blocked
  | .panic msg => .panic msg

/-! ## Step relation of the goroutines sharing one Server -/

/-- One scheduling step of one goroutine. -/
inductive Event where
  /-- A call of ListenAndServe up to its blocking in wsSrv.Serve (or its
  return on a bind error). -/
  | listenAndServe (bind : Except GoError Listener)
  /-- A call of Shutdown passing lines 197-200. -/
  | shutdown
  /-- A request entering Handler, lines 112-142. -/
  | request (r : Request) (upgradeOk : Bool)
  /-- One iteration of the receive loop of connection i. -/
  | read (i : Nat) (res : Except GoError Frame)
  /-- The watcher of connection i leaving its select and finishing. -/
  | watcher (i : Nat) (writeOk coin : Bool)

/-- The effect of one event on the shared state. -/
def step {S W M : Type} (E : Env S W M) (s : Server M) : Event → Run (Server M)
  | .listenAndServe bind =>
    match listen s bind with
    | (s, .error _) => .ok s
    | (s, .ok _) => serveEnter s
  | .shutdown => shutdownStop s
  | .request r upgradeOk => .ok (handlerEnter E s r upgradeOk).1
  | .read i res => readStep E s i res
  | .watcher i writeOk coin => watcherStep s i writeOk coin

/-- States reachable from New by steps that return. -/
inductive Reachable {S W M : Type} (E : Env S W M) : Server M → Prop where
  | init (addr : String) : Reachable E (New addr)
  | next {s t : Server M} (e : Event) : Reachable E s → step E s e = .ok t → Reachable E t

/-- Run a list of events in order, stopping at the first that does not return. -/
def exec {S W M : Type} (E : Env S W M) (s : Server M) : List Event → Run (Server M)
  | [] => .ok s
  | e :: es =>
    match step E s e with
    | .ok t => exec E t es
    | .blocked => .blocked
    | .panic msg => .panic msg

/-! ## Specification-side definitions -/

/-- The samples one frame decodes to, in the words of the specification: the
records of a binary batch that have a payload, in record order; the single
sample of a valid text frame; nothing for a rejected frame. -/
def specSamples {S W M : Type} (E : Env S W M) (f : Frame) : List M :=
  if f.messageType = BinaryMessage then
    match E.Unmarshal f.msg with
    | .ok wsms => (wsms.filter (fun w => (E.Stat w).isSome)).map E.ToStatMessage
    | .error _ => []
  else if f.messageType = TextMessage then
    match E.JSONDecode f.msg with
    | .ok sm => [sm]
    | .error _ => []
  else []

/-- A frame rejected by the per-frame dispatch, in the words of the
specification: a text frame whose JSON decode fails, a binary frame whose
Unmarshal fails, or a frame that is neither binary nor text. -/
def Rejected {S W M : Type} (E : Env S W M) (f : Frame) : Prop :=
  (f.messageType = TextMessage ∧ ∃ err, E.JSONDecode f.msg = .error err) ∨
  (f.messageType = BinaryMessage ∧ ∃ err, E.Unmarshal f.msg = .error err) ∨
  (f.messageType ≠ BinaryMessage ∧ f.messageType ≠ TextMessage)

/-- Number of connections whose watcher goroutine has not finished. -/
def activeWatchers (cs : List Conn) : Nat :=
  (cs.filter (fun c => !c.watcherExited)).length

/-- An environment used for concrete runs: a wire record is an optional number,
a binary payload decodes bytewise (0 is a record without payload), a text
payload decodes to its first byte. -/
def exampleEnv : Env Nat (Option Nat) Nat :=
  { IsKubeletProbe := fun r => r.path == "/healthz"
    Unmarshal := fun bs =>
      if bs.contains 255 then .error (.other 1)
      else .ok (bs.map (fun b => if b = 0 then none else some b))
    Stat := fun w => w
    ToStatMessage := fun w => w.getD 0
    JSONDecode := fun bs =>
      match bs with
      | [] => .error (.other 2)
      | b :: _ => .ok b }

/-- A request that is not a probe. -/
def exampleRequest : Request :=
  { method := "GET", path := "/", header := [("Upgrade", "websocket")] }

/-- A probe request. -/
def exampleProbe : Request :=
  { method := "GET", path := "/healthz", header := [] }

/-- The new server after one successful upgrade of exampleRequest. -/
def exampleUpgraded : Server Nat :=
  (handlerEnter exampleEnv (New "") exampleRequest true).1

/-- Frames used for concrete runs: a batch of three records the second of which
has no payload, a text frame that does not decode, a frame of an unknown type,
and a valid text frame. -/
def exampleFrames : List Frame :=
  [{ messageType := 2, msg := [5, 0, 7] }, { messageType := 1, msg := [] },
   { messageType := 9, msg := [3] }, { messageType := 1, msg := [4] }]

/-- A run in which the stop signal reaches the watcher of a connection whose
receive loop is still running: serve, one upgrade, Shutdown, the watcher. -/
def exampleEvents : List Event :=
  [.listenAndServe (.ok { addr := "" }), .request exampleRequest true, .shutdown,
   .watcher 0 true true]

/-- A run in which the receive loop of a connection ends on a read error while
stopCh is still open: serve, one upgrade, a failing read. -/
def exampleHandlerFirstEvents : List Event :=
  [.listenAndServe (.ok { addr := "" }), .request exampleRequest true,
   .read 0 (.error (.CloseError 1006))]

/-- The state at the end of exampleHandlerFirstEvents. -/
def exampleHandlerFirst : Server Nat :=
  match exec exampleEnv (New "") exampleHandlerFirstEvents with
  | .ok t => t
  | _ => New ""

/-- The state after Shutdown has then closed stopCh and the watcher, reaching
its select only now, has taken the stop case. -/
def exampleLateWatcher : Server Nat :=
  match exec exampleEnv exampleHandlerFirst [.shutdown, .watcher 0 true true] with
  | .ok t => t
  | _ => New ""

/-- The state at the end of exampleEvents. -/
def exampleStopped : Server Nat :=
  match exec exampleEnv (New "") exampleEvents with
  | .ok t => t
  | _ => New ""

/-- A new server on which serve has closed servingCh. -/
def exampleServing : Server Nat :=
  { (New "" : Server Nat) with servingCh := true }

/-- A run of the drain phase in which openClients is zero from the start and
closing the listener runs into the deadline. -/
def exampleListenerTimeout : DrainEnv :=
  { closeErr := some GoError.DeadlineExceeded, closeReturn := 10, deadline := 10,
    zeroAt := some 0, coin := true }

/-- A run of the drain phase in which the listener closes at once and
openClients reaches zero before the deadline. -/
def exampleCleanDrain : DrainEnv :=
  { closeErr := none, closeReturn := 1, deadline := 10, zeroAt := some 4, coin := false }

/-- The messages of the log entries that t has beyond those of s. -/
def reported {M : Type} (s t : Server M) : List String :=
  (t.logs.drop s.logs.length).map LogEntry.msg

/-- What holds of every connection in every reachable state. -/
def ConnInv (c : Conn) : Prop :=
  c.doneCalls = (if c.watcherExited then 1 else 0) ∧
  c.loopExited = c.handlerCh ∧
  (c.watcherExited = true → c.loopExited = true ∨ c.closed = true)

/-- What holds of every reachable state. -/
def Inv {M : Type} (s : Server M) : Prop :=
  (s.stopCh = true → s.servingCh = true) ∧
  s.openClients = activeWatchers s.conns ∧
  ∀ c ∈ s.conns, ConnInv c

/-! ## Lemmas on the receive loop -/

/-! ## Frame lemmas: what the per-frame code leaves untouched -/

theorem forwardBatch_statsCh {S W M : Type} (E : Env S W M) (s : Server M) (ws : List W) :
    (forwardBatch E s ws).statsCh =
      s.statsCh ++ (ws.filter (fun w => (E.Stat w).isSome)).map E.ToStatMessage := by
  induction ws generalizing s with
  | nil => simp [forwardBatch]
  | cons w rest ih =>
    cases h : E.Stat w with
    | none => simp [forwardBatch, h, ih]
    | some v => simp [forwardBatch, h, ih, Server.log, Server.send]

theorem forwardBatch_logs {S W M : Type} (E : Env S W M) (s : Server M) (ws : List W) :
    (forwardBatch E s ws).logs =
      s.logs ++ List.replicate (ws.filter (fun w => (E.Stat w).isSome)).length
        { level := Level.debug, msg := "Received stat message: %+v" } := by
  induction ws generalizing s with
  | nil => simp [forwardBatch]
  | cons w rest ih =>
    cases h : E.Stat w with
    | none => simp [forwardBatch, h, ih]
    | some v =>
      simp [forwardBatch, h, ih, Server.log, Server.send, List.replicate_succ]

theorem forwardBatch_frame {S W M : Type} (E : Env S W M) (s : Server M) (ws : List W) :
    (forwardBatch E s ws).conns = s.conns ∧
    (forwardBatch E s ws).openClients = s.openClients ∧
    (forwardBatch E s ws).servingCh = s.servingCh ∧
    (forwardBatch E s ws).stopCh = s.stopCh ∧
    (forwardBatch E s ws).responses = s.responses ∧
    (forwardBatch E s ws).upgrades = s.upgrades := by
  induction ws generalizing s with
  | nil => simp [forwardBatch]
  | cons w rest ih =>
    cases h : E.Stat w with
    | none => simpa [forwardBatch, h] using ih s
    | some v => simpa [forwardBatch, h, Server.log, Server.send] using ih _

theorem handleFrame_frame {S W M : Type} (E : Env S W M) (s : Server M) (f : Frame) :
    (handleFrame E s f).conns = s.conns ∧
    (handleFrame E s f).openClients = s.openClients ∧
    (handleFrame E s f).servingCh = s.servingCh ∧
    (handleFrame E s f).stopCh = s.stopCh ∧
    (handleFrame E s f).responses = s.responses ∧
    (handleFrame E s f).upgrades = s.upgrades := by
  unfold handleFrame
  split_ifs
  · cases h : E.Unmarshal f.msg with
    | error e => simp [Server.log]
    | ok ws => simpa using forwardBatch_frame E s ws
  · cases h : E.JSONDecode f.msg with
    | error e => simp [Server.log]
    | ok sm => simp [Server.log, Server.send]
  · simp [Server.log]

theorem handleFrame_statsCh {S W M : Type} (E : Env S W M) (s : Server M) (f : Frame) :
    (handleFrame E s f).statsCh = s.statsCh ++ specSamples E f := by
  unfold handleFrame specSamples
  split_ifs
  · cases h : E.Unmarshal f.msg with
    | error e => simp [Server.log]
    | ok ws => simpa using forwardBatch_statsCh E s ws
  · cases h : E.JSONDecode f.msg with
    | error e => simp [Server.log]
    | ok sm => simp [Server.log, Server.send]
  · simp [Server.log]

theorem specSamples_rejected {S W M : Type} (E : Env S W M) (f : Frame)
    (hr : Rejected E f) : specSamples E f = ([] : List M) := by
  unfold specSamples
  rcases hr with ⟨ht, e, he⟩ | ⟨hb, e, he⟩ | ⟨hb, ht⟩
  · have hne : TextMessage ≠ BinaryMessage := by decide
    simp [ht, he, hne]
  · simp [hb, he]
  · simp [hb, ht]

theorem readStep_ok {S W M : Type} (E : Env S W M) (s : Server M) (i : Nat) (c : Conn)
    (f : Frame) (hc : s.conns[i]? = some c) (hl : c.loopExited = false) :
    readStep E s i (.ok f) = .ok (handleFrame E s f) := by
  simp [readStep, hc, hl]

theorem readStep_error {S W M : Type} (E : Env S W M) (s : Server M) (i : Nat) (c : Conn)
    (err : GoError) (hc : s.conns[i]? = some c) (hl : c.loopExited = false) :
    readStep E s i (.error err) = .ok (loopExit s i c err) := by
  simp [readStep, hc, hl]

theorem loopExit_statsCh {M : Type} (s : Server M) (i : Nat) (c : Conn) (err : GoError) :
    (loopExit s i c err).statsCh = s.statsCh := by
  unfold loopExit
  split_ifs <;> simp [Server.log]

theorem loopExit_conns {M : Type} (s : Server M) (i : Nat) (c : Conn) (err : GoError) :
    (loopExit s i c err).conns =
      s.conns.set i { c with handlerCh := true, loopExited := true } := by
  unfold loopExit
  split_ifs <;> simp [Server.log]

/-- The receive loop after one frame goes on from the state that frame left. -/
theorem receiveLoop_cons_ok {S W M : Type} (E : Env S W M) (s : Server M) (i : Nat)
    (c : Conn) (f : Frame) (rest : List (Except GoError Frame))
    (hc : s.conns[i]? = some c) (hl : c.loopExited = false) :
    receiveLoop E s i (.ok f :: rest) = receiveLoop E (handleFrame E s f) i rest := by
  simp [receiveLoop, readStep_ok E s i c f hc hl]

/-- The receive loop on frames read without error followed by a read error. -/
theorem receiveLoop_frames {S W M : Type} (E : Env S W M) (i : Nat) (c : Conn)
    (err : GoError) (later : List (Except GoError Frame)) (frames : List Frame) :
    ∀ s : Server M, s.conns[i]? = some c → c.loopExited = false →
      (receiveLoop E s i (frames.map Except.ok ++ Except.error err :: later)).statsCh =
        s.statsCh ++ (frames.map (specSamples E)).flatten ∧
      (receiveLoop E s i (frames.map Except.ok ++ Except.error err :: later)).conns =
        s.conns.set i { c with handlerCh := true, loopExited := true } := by
  induction frames with
  | nil =>
    intro s hc hl
    simp [receiveLoop, readStep_error E s i c err hc hl, loopExit_statsCh, loopExit_conns]
  | cons f rest ih =>
    intro s hc hl
    have hconns := (handleFrame_frame E s f).1
    have hc1 : (handleFrame E s f).conns[i]? = some c := by rw [hconns]; exact hc
    have h := ih (handleFrame E s f) hc1 hl
    rw [List.map_cons, List.cons_append, receiveLoop_cons_ok E s i c f _ hc hl,
      h.1, h.2, handleFrame_statsCh, hconns]
    simp

theorem filter_isSome_length {S W : Type} (stat : W → Option S) (ws : List W) :
    (ws.filter (fun w => (stat w).isSome)).length =
      ws.length - ws.countP (fun w => (stat w).isNone) := by
  have h : ∀ l : List W,
      (l.filter (fun w => (stat w).isSome)).length + l.countP (fun w => (stat w).isNone)
        = l.length := by
    intro l
    induction l with
    | nil => simp
    | cons w rest ih =>
      cases hs : stat w with
      | none => simp [hs, List.countP_cons]; omega
      | some v => simp [hs, List.countP_cons]; omega
  have := h ws
  omega

theorem receiveLoop_statsCh_congr {S W M : Type} (E : Env S W M) (i : Nat) (c : Conn)
    (hl : c.loopExited = false) (reads : List (Except GoError Frame)) :
    ∀ s t : Server M, s.conns[i]? = some c → t.conns[i]? = some c → s.statsCh = t.statsCh →
      (receiveLoop E s i reads).statsCh = (receiveLoop E t i reads).statsCh := by
  induction reads with
  | nil => intro s t _ _ h; simpa [receiveLoop] using h
  | cons res rest ih =>
    intro s t hs ht h
    cases res with
    | error err =>
      simp [receiveLoop, readStep_error E s i c err hs hl, readStep_error E t i c err ht hl,
        loopExit_statsCh, h]
    | ok f =>
      rw [receiveLoop_cons_ok E s i c f rest hs hl, receiveLoop_cons_ok E t i c f rest ht hl]
      apply ih
      · rw [(handleFrame_frame E s f).1]; exact hs
      · rw [(handleFrame_frame E t f).1]; exact ht
      · rw [handleFrame_statsCh, handleFrame_statsCh, h]

theorem handlerEnter_upgraded {S W M : Type} (E : Env S W M) (s : Server M) (r : Request)
    (hp : E.IsKubeletProbe r = false) :
    (handlerEnter E s r true).2 = some s.conns.length ∧
    (handlerEnter E s r true).1.conns = s.conns ++ [Conn.fresh] ∧
    (handlerEnter E s r true).1.statsCh = s.statsCh ∧
    (handlerEnter E s r true).1.openClients = s.openClients + 1 := by
  simp [handlerEnter, handleHealthz, hp, Server.log]

theorem receiveLoop_after_error {S W M : Type} (E : Env S W M) (i : Nat) (c : Conn)
    (err : GoError) (later : List (Except GoError Frame)) (hl : c.loopExited = false)
    (frames : List Frame) :
    ∀ s : Server M, s.conns[i]? = some c →
      receiveLoop E s i (frames.map Except.ok ++ Except.error err :: later) =
        receiveLoop E s i (frames.map Except.ok ++ [Except.error err]) := by
  induction frames with
  | nil =>
    intro s hc
    simp [receiveLoop, readStep_error E s i c err hc hl]
  | cons f rest ih =>
    intro s hc
    have hc1 : (handleFrame E s f).conns[i]? = some c := by
      rw [(handleFrame_frame E s f).1]; exact hc
    rw [List.map_cons, List.cons_append, List.cons_append,
      receiveLoop_cons_ok E s i c f _ hc hl, receiveLoop_cons_ok E s i c f _ hc hl]
    exact ih _ hc1

/-- C1: for every binary frame whose Unmarshal succeeds with a batch of N records of
which K have a nil Stat, the iteration of the receive loop of a running connection
sends exactly N-K messages on statsCh: the ToStatMessage values of the records with a
non-nil Stat, in record order.  Nil records send nothing and log no error, and the
loop goes on (the connections are unchanged). -/
theorem C1_binary_batch_forwards_records_with_payload {S W M : Type} (E : Env S W M)
    (s : Server M) (i : Nat) (c : Conn) (f : Frame) (wsms : List W)
    (hc : s.conns[i]? = some c) (hl : c.loopExited = false)
    (hb : f.messageType = BinaryMessage) (hu : E.Unmarshal f.msg = .ok wsms) :
    ∃ t, readStep E s i (.ok f) = .ok t ∧
      t.statsCh = s.statsCh ++ (wsms.filter (fun w => (E.Stat w).isSome)).map E.ToStatMessage ∧
      ((wsms.filter (fun w => (E.Stat w).isSome)).map E.ToStatMessage).length =
        wsms.length - wsms.countP (fun w => (E.Stat w).isNone) ∧
      t.logs = s.logs ++
        List.replicate (wsms.length - wsms.countP (fun w => (E.Stat w).isNone))
          { level := Level.debug, msg := "Received stat message: %+v" } ∧
      t.conns = s.conns := by
  refine ⟨handleFrame E s f, readStep_ok E s i c f hc hl, ?_, ?_, ?_, ?_⟩
  · simp [handleFrame, hb, hu, forwardBatch_statsCh]
  · rw [List.length_map, filter_isSome_length]
  · simp [handleFrame, hb, hu, forwardBatch_logs, filter_isSome_length]
  · exact (handleFrame_frame E s f).1

/-- Witness of C1: the batch 5, empty, 7 on the example connection. -/
theorem C1_witness :
    ∃ t, readStep exampleEnv exampleUpgraded 0 (.ok { messageType := 2, msg := [5, 0, 7] }) = .ok t ∧
      t.statsCh = exampleUpgraded.statsCh ++
        ([some 5, none, some 7].filter (fun w => (exampleEnv.Stat w).isSome)).map
          exampleEnv.ToStatMessage ∧
      (([some 5, none, some 7].filter (fun w => (exampleEnv.Stat w).isSome)).map
          exampleEnv.ToStatMessage).length =
        [some 5, none, some 7].length -
          [some 5, none, some 7].countP (fun w => (exampleEnv.Stat w).isNone) ∧
      t.logs = exampleUpgraded.logs ++
        List.replicate ([some 5, none, some 7].length -
            [some 5, none, some 7].countP (fun w => (exampleEnv.Stat w).isNone))
          { level := Level.debug, msg := "Received stat message: %+v" } ∧
      t.conns = exampleUpgraded.conns :=
  C1_binary_batch_forwards_records_with_payload exampleEnv exampleUpgraded 0 Conn.fresh
    { messageType := 2, msg := [5, 0, 7] } [some 5, none, some 7] rfl rfl rfl rfl

/-- C2: a frame rejected by the dispatch (text frame whose JSON decode fails, binary
frame whose Unmarshal fails, or a message type that is neither) sends nothing on
statsCh and does not end the receive loop of its connection: the iteration returns
with the connections unchanged, and the loop handles the reads that follow exactly
as it would without the rejected frame, so a following valid frame is forwarded. -/
theorem C2_rejected_frame_sends_nothing_and_loop_continues {S W M : Type}
    (E : Env S W M) (s : Server M) (i : Nat) (c : Conn) (f : Frame)
    (rest : List (Except GoError Frame))
    (hc : s.conns[i]? = some c) (hl : c.loopExited = false) (hr : Rejected E f) :
    (∃ t, readStep E s i (.ok f) = .ok t ∧ t.statsCh = s.statsCh ∧ t.conns = s.conns) ∧
    (receiveLoop E s i (.ok f :: rest)).statsCh = (receiveLoop E s i rest).statsCh ∧
    (∀ g : Frame, (receiveLoop E s i [.ok f, .ok g]).statsCh = s.statsCh ++ specSamples E g) := by
  have hst : (handleFrame E s f).statsCh = s.statsCh := by
    rw [handleFrame_statsCh, specSamples_rejected E f hr, List.append_nil]
  have hcn : (handleFrame E s f).conns = s.conns := (handleFrame_frame E s f).1
  have hc1 : (handleFrame E s f).conns[i]? = some c := by rw [hcn]; exact hc
  refine ⟨⟨handleFrame E s f, readStep_ok E s i c f hc hl, hst, hcn⟩, ?_, ?_⟩
  · rw [receiveLoop_cons_ok E s i c f rest hc hl]
    exact receiveLoop_statsCh_congr E i c hl rest _ _ hc1 hc hst
  · intro g
    rw [receiveLoop_cons_ok E s i c f _ hc hl, receiveLoop_cons_ok E _ i c g _ hc1 hl]
    simp [receiveLoop, handleFrame_statsCh, specSamples_rejected E f hr]

/-- Witness of C2: a text frame that does not decode, followed by a valid batch. -/
theorem C2_witness :
    (∃ t, readStep exampleEnv exampleUpgraded 0 (.ok { messageType := 1, msg := [] }) = .ok t ∧
      t.statsCh = exampleUpgraded.statsCh ∧ t.conns = exampleUpgraded.conns) ∧
    (receiveLoop exampleEnv exampleUpgraded 0
        [.ok { messageType := 1, msg := [] }, .ok { messageType := 2, msg := [5, 0, 7] }]).statsCh =
      (receiveLoop exampleEnv exampleUpgraded 0 [.ok { messageType := 2, msg := [5, 0, 7] }]).statsCh ∧
    (∀ g : Frame, (receiveLoop exampleEnv exampleUpgraded 0
        [.ok { messageType := 1, msg := [] }, .ok g]).statsCh =
      exampleUpgraded.statsCh ++ specSamples exampleEnv g) :=
  C2_rejected_frame_sends_nothing_and_loop_continues exampleEnv exampleUpgraded 0 Conn.fresh
    { messageType := 1, msg := [] } [.ok { messageType := 2, msg := [5, 0, 7] }] rfl rfl
    (Or.inl ⟨rfl, GoError.other 2, rfl⟩)

/-- C3: for every sequence of frames read without error on one connection followed by
a read error, the messages Handler sends on statsCh are the concatenation, in arrival
order, of the samples of each frame (records with payload of a binary batch in record
order, the sample of a valid text frame, nothing for a rejected frame); the receive
loop has then returned, and whatever would be read after the error has no effect. -/
theorem C3_handler_forwards_in_arrival_order {S W M : Type} (E : Env S W M)
    (s : Server M) (r : Request) (frames : List Frame) (err : GoError)
    (later : List (Except GoError Frame)) (hp : E.IsKubeletProbe r = false) :
    (Handler E s r true (frames.map Except.ok ++ Except.error err :: later)).statsCh =
      s.statsCh ++ (frames.map (specSamples E)).flatten ∧
    (Handler E s r true (frames.map Except.ok ++ Except.error err :: later)).conns =
      s.conns ++ [{ Conn.fresh with handlerCh := true, loopExited := true }] ∧
    Handler E s r true (frames.map Except.ok ++ Except.error err :: later) =
      Handler E s r true (frames.map Except.ok ++ [Except.error err]) := by
  obtain ⟨h2, hcn, hst, -⟩ := handlerEnter_upgraded E s r hp
  have hsplit : handlerEnter E s r true =
      ((handlerEnter E s r true).1, some s.conns.length) := by
    rw [← h2]
  have hc : (handlerEnter E s r true).1.conns[s.conns.length]? = some Conn.fresh := by
    rw [hcn]; simp
  have key : ∀ later : List (Except GoError Frame),
      (Handler E s r true (frames.map Except.ok ++ Except.error err :: later)).statsCh =
        s.statsCh ++ (frames.map (specSamples E)).flatten ∧
      (Handler E s r true (frames.map Except.ok ++ Except.error err :: later)).conns =
        s.conns ++ [{ Conn.fresh with handlerCh := true, loopExited := true }] := by
    intro later
    have h := receiveLoop_frames E s.conns.length Conn.fresh err later frames
      (handlerEnter E s r true).1 hc rfl
    unfold Handler
    rw [hsplit]
    simp only
    rw [h.1, h.2, hst, hcn]
    simp
  refine ⟨(key later).1, (key later).2, ?_⟩
  unfold Handler
  rw [hsplit]
  exact receiveLoop_after_error E _ Conn.fresh err later rfl frames _ hc

/-- Witness of C3: four frames, a read error, and a frame that is never read. -/
theorem C3_witness :
    (Handler exampleEnv (New "") exampleRequest true
        (exampleFrames.map Except.ok ++ Except.error (GoError.other 0) ::
          [Except.ok { messageType := 1, msg := [8] }])).statsCh =
      (New "" : Server Nat).statsCh ++ (exampleFrames.map (specSamples exampleEnv)).flatten ∧
    (Handler exampleEnv (New "") exampleRequest true
        (exampleFrames.map Except.ok ++ Except.error (GoError.other 0) ::
          [Except.ok { messageType := 1, msg := [8] }])).conns =
      (New "" : Server Nat).conns ++
        [{ Conn.fresh with handlerCh := true, loopExited := true }] ∧
    Handler exampleEnv (New "") exampleRequest true
        (exampleFrames.map Except.ok ++ Except.error (GoError.other 0) ::
          [Except.ok { messageType := 1, msg := [8] }]) =
      Handler exampleEnv (New "") exampleRequest true
        (exampleFrames.map Except.ok ++ [Except.error (GoError.other 0)]) :=
  C3_handler_forwards_in_arrival_order exampleEnv (New "") exampleRequest exampleFrames
    (GoError.other 0) [Except.ok { messageType := 1, msg := [8] }] rfl

/-! ## Watcher, ListenAndServe, health probe, close code -/

/-- C4, as stated, fails: the receive loop ends first and closes handlerCh while
stopCh is still open and nothing has been done on the socket; Shutdown then closes
stopCh; the watcher reaches its select with both channels closed, the select takes
the stop case, and the close frame is written and the socket closed all the same. -/
theorem C4_counterexample :
    exec exampleEnv (New "") exampleHandlerFirstEvents = .ok exampleHandlerFirst ∧
    exampleHandlerFirst.stopCh = false ∧
    exampleHandlerFirst.conns.map Conn.handlerCh = [true] ∧
    exampleHandlerFirst.conns.map Conn.calls = [[]] ∧
    exec exampleEnv exampleHandlerFirst [.shutdown, .watcher 0 true true] =
      .ok exampleLateWatcher ∧
    exampleLateWatcher.conns.map Conn.calls =
      [[SockCall.write { messageType := 8, data := { code := 1012, text := "Restarting" },
                         ok := true },
        SockCall.close]] ∧
    ¬ (exampleLateWatcher.conns.map Conn.written = [[]] ∧
       exampleLateWatcher.conns.map Conn.closed = [false]) :=
  ⟨rfl, by decide, by decide, by decide, rfl, by decide, by decide⟩

/-- C4, amended: the watcher acts on the case its select takes.  With only stopCh
closed it takes the stop case: its calls on the socket are exactly one WriteMessage
of a close message carrying closeCodeServiceRestart and the reason Restarting,
followed by Close, whether or not the write succeeded.  With only handlerCh closed it
takes the other case and makes no call on the socket.  With both closed by the time
the select runs, the select picks either case, whichever channel was closed first,
and the watcher does what that case does.  With neither closed it stays blocked. -/
theorem C4_watcher_acts_on_case_taken {M : Type} (s : Server M) (c : Conn)
    (writeOk coin : Bool) :
    (watcherRun { s with stopCh := true } { c with handlerCh := false } writeOk coin).map Prod.snd =
      some { c with
        handlerCh := false
        calls := c.calls ++
          [SockCall.write
             { messageType := CloseMessage,
               data := { code := closeCodeServiceRestart, text := "Restarting" },
               ok := writeOk },
           SockCall.close] } ∧
    (watcherRun { s with stopCh := false } { c with handlerCh := true } writeOk coin).map Prod.snd =
      some { c with handlerCh := true } ∧
    (watcherRun { s with stopCh := true } { c with handlerCh := true } writeOk coin).map Prod.snd =
      some (if coin then
          { c with
            handlerCh := true
            calls := c.calls ++
              [SockCall.write
                 { messageType := CloseMessage,
                   data := { code := closeCodeServiceRestart, text := "Restarting" },
                   ok := writeOk },
               SockCall.close] }
        else { c with handlerCh := true }) ∧
    (watcherRun { s with stopCh := false } { c with handlerCh := false } writeOk coin).map Prod.snd =
      none := by
  refine ⟨?_, ?_, ?_, ?_⟩
  · simp [watcherRun, select2, watcherBody, FormatCloseMessage]
  · simp [watcherRun, select2, watcherBody, FormatCloseMessage]
  · cases coin <;> simp [watcherRun, select2, watcherBody, FormatCloseMessage]
  · simp [watcherRun, select2, watcherBody, FormatCloseMessage]

/-- C5: on a server whose servingCh is still open, ListenAndServe returns, and it
returns nil exactly when listen succeeded and the serve loop ended with
ErrServerClosed.  A bind error is returned unchanged, with serve not entered
(servingCh still open); after a successful bind servingCh is closed and any other
error of the serve loop is returned unchanged. -/
theorem C5_listenAndServe_result {M : Type} (s : Server M) (bind : Except GoError Listener)
    (serveErr : GoError) (h : s.servingCh = false) :
    ∃ t res, ListenAndServe s bind serveErr = .ok (t, res) ∧
      (res = none ↔ (∃ l, bind = .ok l) ∧ serveErr = GoError.ErrServerClosed) ∧
      (∀ err, bind = .error err → res = some err ∧ t.servingCh = false) ∧
      (∀ l, bind = .ok l → t.servingCh = true ∧
        (serveErr ≠ GoError.ErrServerClosed → res = some serveErr)) := by
  cases bind with
  | error err =>
    refine ⟨s.log .info "Starting", some err, ?_, ?_, ?_, ?_⟩
    · simp [ListenAndServe, listen]
    · simp
    · intro e he
      cases he
      exact ⟨rfl, h⟩
    · intro l hl
      cases hl
  | ok l =>
    by_cases hs : serveErr = GoError.ErrServerClosed
    · refine ⟨{ s.log .info "Starting" with servingCh := true }, none, ?_, ?_, ?_, ?_⟩
      · simp [ListenAndServe, listen, serve, serveEnter, Server.log, h, hs]
      · simp [hs]
      · intro e he
        cases he
      · intro l2 _
        exact ⟨rfl, fun hne => absurd hs hne⟩
    · refine ⟨{ s.log .info "Starting" with servingCh := true }, some serveErr, ?_, ?_, ?_, ?_⟩
      · simp [ListenAndServe, listen, serve, serveEnter, Server.log, h, hs]
      · simp [hs]
      · intro e he
        cases he
      · intro l2 _
        exact ⟨rfl, fun _ => rfl⟩

/-- Witness of C5: a clean shutdown returns nil, a bind error is returned as it is. -/
theorem C5_witness :
    (∃ t, ListenAndServe (New "" : Server Nat) (.ok { addr := "" }) GoError.ErrServerClosed =
        .ok (t, none) ∧ t.servingCh = true) ∧
    (∃ t, ListenAndServe (New "" : Server Nat) (.error (GoError.other 98)) GoError.ErrServerClosed =
        .ok (t, some (GoError.other 98)) ∧ t.servingCh = false) := by
  constructor
  · obtain ⟨t, res, hrun, hnil, -, hok⟩ :=
      C5_listenAndServe_result (New "" : Server Nat) (.ok { addr := "" })
        GoError.ErrServerClosed rfl
    have hres : res = none := hnil.2 ⟨⟨_, rfl⟩, rfl⟩
    subst hres
    exact ⟨t, hrun, (hok _ rfl).1⟩
  · obtain ⟨t, res, hrun, -, herr, -⟩ :=
      C5_listenAndServe_result (New "" : Server Nat) (.error (GoError.other 98))
        GoError.ErrServerClosed rfl
    obtain ⟨hres, hs⟩ := herr _ rfl
    subst hres
    exact ⟨t, hrun, hs⟩

/-- C6: for a request that handleHealthz recognises as a kubelet probe, Handler
writes status 200 and returns: upgrader.Upgrade is not called, openClients keeps its
value, no connection (and so no watcher) is created and nothing is sent on statsCh,
whatever the upgrade or the socket would have done. -/
theorem C6_probe_is_answered_without_upgrade {S W M : Type} (E : Env S W M) (s : Server M)
    (r : Request) (upgradeOk : Bool) (reads : List (Except GoError Frame))
    (hp : E.IsKubeletProbe r = true) :
    (handleHealthz E s r).2 = true ∧
    (Handler E s r upgradeOk reads).responses = s.responses ++ [StatusOK] ∧
    (Handler E s r upgradeOk reads).upgrades = s.upgrades ∧
    (Handler E s r upgradeOk reads).openClients = s.openClients ∧
    (Handler E s r upgradeOk reads).conns = s.conns ∧
    (Handler E s r upgradeOk reads).statsCh = s.statsCh ∧
    step E s (.request r upgradeOk) = .ok (Handler E s r upgradeOk reads) := by
  simp [Handler, handlerEnter, handleHealthz, hp, Server.log, step]

/-- Witness of C6: a probe sent to a server that has one open connection. -/
theorem C6_witness :
    (handleHealthz exampleEnv exampleUpgraded exampleProbe).2 = true ∧
    (Handler exampleEnv exampleUpgraded exampleProbe true []).responses =
      exampleUpgraded.responses ++ [StatusOK] ∧
    (Handler exampleEnv exampleUpgraded exampleProbe true []).upgrades = exampleUpgraded.upgrades ∧
    (Handler exampleEnv exampleUpgraded exampleProbe true []).openClients =
      exampleUpgraded.openClients ∧
    (Handler exampleEnv exampleUpgraded exampleProbe true []).conns = exampleUpgraded.conns ∧
    (Handler exampleEnv exampleUpgraded exampleProbe true []).statsCh = exampleUpgraded.statsCh ∧
    step exampleEnv exampleUpgraded (.request exampleProbe true) =
      .ok (Handler exampleEnv exampleUpgraded exampleProbe true []) :=
  C6_probe_is_answered_without_upgrade exampleEnv exampleUpgraded exampleProbe true [] rfl

/-- C9, as stated, fails: the close code lies inside 1000..2999. -/
theorem C9_counterexample :
    ¬ (closeCodeServiceRestart < 1000 ∨ 2999 < closeCodeServiceRestart) := by
  decide

/-- C9, amended: the close code the watcher sends on the stop signal is 1012, the
code registered for a service restart; it lies inside 1000..2999, the range reserved
for codes defined by the protocol and its registry, and below the ranges 3000..4999
left to libraries and applications. -/
theorem C9_close_code_is_registered_service_restart {M : Type} (s : Server M) (c : Conn)
    (writeOk : Bool) :
    (watcherBody s c .stop writeOk).2.written =
      c.written ++ [{ messageType := CloseMessage,
                      data := { code := closeCodeServiceRestart, text := "Restarting" },
                      ok := writeOk }] ∧
    closeCodeServiceRestart = 1012 ∧
    1000 ≤ closeCodeServiceRestart ∧ closeCodeServiceRestart ≤ 2999 ∧
    ¬ (3000 ≤ closeCodeServiceRestart ∧ closeCodeServiceRestart ≤ 4999) := by
  refine ⟨?_, rfl, by decide, by decide, by decide⟩
  simp [watcherBody, FormatCloseMessage, Conn.written, List.filterMap_append]

/-! ## Invariants of the step relation -/

theorem activeWatchers_append (cs : List Conn) (c : Conn) :
    activeWatchers (cs ++ [c]) = activeWatchers cs + (if c.watcherExited then 0 else 1) := by
  cases h : c.watcherExited <;> simp [activeWatchers, List.filter_append, h]

theorem activeWatchers_set (cs : List Conn) :
    ∀ (i : Nat) (c d : Conn), cs[i]? = some c →
      activeWatchers (cs.set i d) + (if c.watcherExited then 0 else 1) =
        activeWatchers cs + (if d.watcherExited then 0 else 1) := by
  induction cs with
  | nil => intro i c d h; simp at h
  | cons a rest ih =>
    intro i c d h
    cases i with
    | zero =>
      simp at h
      subst h
      cases ha : a.watcherExited <;> cases hd : d.watcherExited <;>
        simp [activeWatchers, List.filter_cons, ha, hd]
    | succ j =>
      simp at h
      have := ih j c d h
      cases ha : a.watcherExited <;>
        simp [activeWatchers, List.filter_cons, ha] at this ⊢ <;> omega

theorem activeWatchers_zero (cs : List Conn) (h : activeWatchers cs = 0) :
    ∀ c ∈ cs, c.watcherExited = true := by
  intro c hc
  by_contra hne
  have hm : c ∈ cs.filter (fun c => !c.watcherExited) := by
    simp [List.mem_filter, hc, hne]
  have : 0 < (cs.filter (fun c => !c.watcherExited)).length := List.length_pos_of_mem hm
  unfold activeWatchers at h
  omega

theorem reachable_exec {S W M : Type} (E : Env S W M) (es : List Event) :
    ∀ s t : Server M, Reachable E s → exec E s es = .ok t → Reachable E t := by
  induction es with
  | nil =>
    intro s t hs h
    simp [exec] at h
    exact h ▸ hs
  | cons e rest ih =>
    intro s t hs h
    unfold exec at h
    cases hstep : step E s e with
    | ok u =>
      rw [hstep] at h
      exact ih u t (Reachable.next e hs hstep) h
    | blocked => rw [hstep] at h; cases h
    | panic msg => rw [hstep] at h; cases h

theorem watcherRun_frame {M : Type} (s t : Server M) (c d : Conn) (writeOk coin : Bool)
    (h : watcherRun s c writeOk coin = some (t, d)) :
    t.conns = s.conns ∧ t.openClients = s.openClients ∧ t.stopCh = s.stopCh ∧
    t.servingCh = s.servingCh ∧ d.watcherExited = c.watcherExited ∧
    d.doneCalls = c.doneCalls ∧ d.loopExited = c.loopExited ∧ d.handlerCh = c.handlerCh ∧
    (d.closed = true ∨ c.handlerCh = true) := by
  unfold watcherRun at h
  cases hs : s.stopCh <;> cases hh : c.handlerCh <;> cases coin <;> cases writeOk <;>
    simp [select2, hs, hh, watcherBody, Server.log] at h <;>
    obtain ⟨h1, h2⟩ := h <;> subst h1 <;> subst h2 <;> simp [hs, hh, Conn.closed]

theorem inv_new {M : Type} (addr : String) : Inv (New addr : Server M) := by
  simp [Inv, New, activeWatchers]

theorem inv_handlerEnter {S W M : Type} (E : Env S W M) (s : Server M) (r : Request)
    (upgradeOk : Bool) (h : Inv s) : Inv (handlerEnter E s r upgradeOk).1 := by
  obtain ⟨h1, h2, h3⟩ := h
  unfold handlerEnter handleHealthz
  cases hp : E.IsKubeletProbe r
  · cases upgradeOk
    · exact ⟨by simpa [Server.log] using h1, by simpa [Server.log] using h2,
        by simpa [Server.log] using h3⟩
    · refine ⟨by simpa [Server.log] using h1, ?_, ?_⟩
      · simp [Server.log, activeWatchers_append, Conn.fresh, h2]
      · intro c hc
        simp [Server.log] at hc
        rcases hc with hc | hc
        · exact h3 c hc
        · subst hc
          simp [ConnInv, Conn.fresh]
  · exact ⟨by simpa [Server.log] using h1, by simpa [Server.log] using h2,
      by simpa [Server.log] using h3⟩

theorem inv_readStep {S W M : Type} (E : Env S W M) (s t : Server M) (i : Nat)
    (res : Except GoError Frame) (h : Inv s) (hstep : readStep E s i res = .ok t) : Inv t := by
  obtain ⟨h1, h2, h3⟩ := h
  unfold readStep at hstep
  cases hc : s.conns[i]? with
  | none => simp [hc] at hstep
  | some c =>
    cases hl : c.loopExited with
    | true => simp [hc, hl] at hstep
    | false =>
      cases res with
      | ok f =>
        simp [hc, hl] at hstep
        subst hstep
        obtain ⟨f1, f2, f3, f4, -, -⟩ := handleFrame_frame E s f
        exact ⟨by rw [f3, f4]; exact h1, by rw [f1, f2]; exact h2, by rw [f1]; exact h3⟩
      | error err =>
        simp [hc, hl] at hstep
        subst hstep
        have hmem : c ∈ s.conns := List.getElem?_mem hc
        obtain ⟨c1, c2, c3⟩ := h3 c hmem
        have hcn := loopExit_conns s i c err
        have hfr : (loopExit s i c err).stopCh = s.stopCh ∧
            (loopExit s i c err).servingCh = s.servingCh ∧
            (loopExit s i c err).openClients = s.openClients := by
          unfold loopExit
          split_ifs <;> simp [Server.log]
        refine ⟨by rw [hfr.1, hfr.2.1]; exact h1, ?_, ?_⟩
        · rw [hfr.2.2, hcn, h2]
          have := activeWatchers_set s.conns i c
            { c with handlerCh := true, loopExited := true } hc
          simp at this
          omega
        · intro d hd
          rw [hcn] at hd
          rcases List.mem_or_eq_of_mem_set hd with hd | hd
          · exact h3 d hd
          · subst hd
            exact ⟨c1, rfl, fun _ => Or.inl rfl⟩

theorem inv_watcherStep {M : Type} (s t : Server M) (i : Nat) (writeOk coin : Bool)
    (h : Inv s) (hstep : watcherStep s i writeOk coin = .ok t) : Inv t := by
  obtain ⟨h1, h2, h3⟩ := h
  unfold watcherStep at hstep
  cases hc : s.conns[i]? with
  | none => simp [hc] at hstep
  | some c =>
    cases hw : c.watcherExited with
    | true => simp [hc, hw] at hstep
    | false =>
      cases hr : watcherRun s c writeOk coin with
      | none => simp [hc, hw, hr] at hstep
      | some p =>
        obtain ⟨u, d⟩ := p
        obtain ⟨f1, f2, f3, f4, g1, g2, g3, g4, g5⟩ := watcherRun_frame s u c d writeOk coin hr
        have hmem : c ∈ s.conns := List.getElem?_mem hc
        obtain ⟨c1, c2, c3⟩ := h3 c hmem
        by_cases h0 : u.openClients = 0
        · simp [hc, hw, hr, h0] at hstep
        · simp [hc, hw, hr, h0] at hstep
          subst hstep
          refine ⟨by simpa [f3, f4] using h1, ?_, ?_⟩
          · have := activeWatchers_set s.conns i c
              { d with watcherExited := true, doneCalls := d.doneCalls + 1 } hc
            simp [hw] at this
            simp only [f1, f2] at h0 ⊢
            omega
          · intro e he
            simp only [f1] at he
            rcases List.mem_or_eq_of_mem_set he with he | he
            · exact h3 e he
            · subst he
              refine ⟨?_, ?_, ?_⟩
              · simp [g2, c1, hw]
              · simp [g3, g4, c2]
              · intro _
                rcases g5 with g5 | g5
                · exact Or.inr g5
                · left
                  simp [g3, c2, g5]

theorem inv_step {S W M : Type} (E : Env S W M) (s t : Server M) (e : Event)
    (h : Inv s) (hstep : step E s e = .ok t) : Inv t := by
  cases e with
  | listenAndServe bind =>
    obtain ⟨h1, h2, h3⟩ := h
    cases bind with
    | error err =>
      simp [step, listen] at hstep
      subst hstep
      exact ⟨by simpa [Server.log] using h1, by simpa [Server.log] using h2,
        by simpa [Server.log] using h3⟩
    | ok l =>
      simp only [step, listen, serveEnter, Server.log] at hstep
      split_ifs at hstep
      cases hstep
      exact ⟨fun _ => rfl, h2, h3⟩
  | shutdown =>
    obtain ⟨h1, h2, h3⟩ := h
    simp only [step, shutdownStop, Server.log] at hstep
    split_ifs at hstep with hs ho
    cases hstep
    exact ⟨fun _ => by simpa using hs, h2, h3⟩
  | request r upgradeOk =>
    simp only [step, Run.ok.injEq] at hstep
    subst hstep
    exact inv_handlerEnter E s r upgradeOk h
  | read i res => exact inv_readStep E s t i res h hstep
  | watcher i writeOk coin => exact inv_watcherStep s t i writeOk coin h hstep

theorem inv_reachable {S W M : Type} (E : Env S W M) (s : Server M) (h : Reachable E s) :
    Inv s := by
  induction h with
  | init addr => exact inv_new addr
  | next e _ hstep ih => exact inv_step E _ _ e ih hstep

/-- C7: in every reachable state, stopCh closed implies servingCh closed.  While
servingCh is open a Shutdown is blocked at its first line and changes nothing; serve
then closes servingCh without touching stopCh, and from there on, as in every
reachable state with servingCh closed and stopCh open, Shutdown returns from lines
197-200 with stopCh closed: it neither panics nor returns with stopCh still open. -/
theorem C7_shutdown_waits_for_readiness {S W M : Type} (E : Env S W M) (s : Server M)
    (l : Listener) (h : Reachable E s) :
    (s.stopCh = true → s.servingCh = true) ∧
    (s.servingCh = false →
      step E s .shutdown = .blocked ∧
      ∃ t, step E s (.listenAndServe (.ok l)) = .ok t ∧ t.servingCh = true ∧
        t.stopCh = false ∧
        ∃ u, step E t .shutdown = .ok u ∧ u.stopCh = true ∧ u.servingCh = true) ∧
    (s.servingCh = true → s.stopCh = false →
      ∃ u, step E s .shutdown = .ok u ∧ u.stopCh = true ∧ u.servingCh = true) := by
  have hinv := (inv_reachable E s h).1
  refine ⟨hinv, ?_, ?_⟩
  · intro hs
    have ho : s.stopCh = false := by
      cases hst : s.stopCh with
      | false => rfl
      | true => rw [hinv hst] at hs; cases hs
    refine ⟨by simp [step, shutdownStop, hs], ?_⟩
    refine ⟨{ s.log .info "Starting" with servingCh := true }, ?_, rfl, ?_, ?_⟩
    · simp [step, listen, serveEnter, Server.log, hs]
    · simpa [Server.log] using ho
    · refine ⟨{ ({ s.log .info "Starting" with servingCh := true } : Server M).log
          .info "Shutting down" with stopCh := true }, ?_, rfl, rfl⟩
      simp [step, shutdownStop, Server.log, ho]
  · intro hs ho
    refine ⟨{ s.log .info "Shutting down" with stopCh := true }, ?_, rfl, ?_⟩
    · simp [step, shutdownStop, Server.log, hs, ho]
    · simpa [Server.log] using hs

/-- Witness of C7: Shutdown called on a new server, before serve. -/
theorem C7_witness :
    step exampleEnv (New "" : Server Nat) .shutdown = .blocked ∧
    ∃ t, step exampleEnv (New "" : Server Nat) (.listenAndServe (.ok { addr := "" })) = .ok t ∧
      t.servingCh = true ∧ t.stopCh = false ∧
      ∃ u, step exampleEnv t .shutdown = .ok u ∧ u.stopCh = true ∧ u.servingCh = true :=
  (C7_shutdown_waits_for_readiness exampleEnv (New "") { addr := "" }
    (Reachable.init "")).2.1 rfl

/-- C8, as stated, fails: openClients is zero from instant 0, well before the deadline
at instant 10, but closing the listener ends with DeadlineExceeded, and Shutdown
reports a timeout (line 206) before it reports completion. -/
theorem C8_counterexample :
    exampleListenerTimeout.zeroAt = some 0 ∧ 0 < exampleListenerTimeout.deadline ∧
    ∃ t, Shutdown exampleServing exampleListenerTimeout = .ok t ∧
      reported exampleServing t = ["Shutting down", "Shutdown timed out", "Shutdown complete"] ∧
      ¬ ("Shutdown complete" ∈ reported exampleServing t ∧
         "Shutdown timed out" ∉ reported exampleServing t) :=
  ⟨rfl, by decide, _, rfl, by decide, by decide⟩

theorem reported_append {M : Type} (s t : Server M) (rep : List LogEntry)
    (h : t.logs = s.logs ++ rep) : reported s t = rep.map LogEntry.msg := by
  simp [reported, h]

/-! ## Shutdown outcome -/

theorem drain_select (x : DrainEnv) :
    ∃ k, select2 DrainCase.done DrainCase.ctxDone (x.doneReady x.wake) (x.ctxReady x.wake)
        x.coin = some k ∧
      (x.closeReturn < x.deadline → (∃ z, x.zeroAt = some z ∧ z < x.deadline) →
        k = DrainCase.done) ∧
      (x.closeReturn < x.deadline → (∀ z, x.zeroAt = some z → x.deadline < z) →
        k = DrainCase.ctxDone) := by
  cases hz : x.zeroAt with
  | none =>
    have hc : x.ctxReady x.wake = true := by
      simp [DrainEnv.ctxReady, DrainEnv.wake, hz]
    refine ⟨DrainCase.ctxDone, ?_, ?_, ?_⟩
    · simp [DrainEnv.doneReady, hz, hc, select2]
    · rintro - ⟨z, h, -⟩
      cases h
    · intro _ _
      rfl
  | some z =>
    by_cases hd : z ≤ x.wake
    · by_cases hc : x.deadline ≤ x.wake
      · refine ⟨if x.coin then DrainCase.done else DrainCase.ctxDone, ?_, ?_, ?_⟩
        · simp [DrainEnv.doneReady, DrainEnv.ctxReady, hz, hd, hc, select2]
        · rintro hr ⟨w, hw, hlt⟩
          cases hw
          simp only [DrainEnv.wake, hz] at hc
          omega
        · intro hr hall
          have := hall z rfl
          simp only [DrainEnv.wake, hz] at hd
          omega
      · refine ⟨DrainCase.done, ?_, ?_, ?_⟩
        · simp [DrainEnv.doneReady, DrainEnv.ctxReady, hz, hd, hc, select2]
        · intro _ _
          rfl
        · intro hr hall
          have := hall z rfl
          simp only [DrainEnv.wake, hz] at hd
          omega
    · have hc : x.deadline ≤ x.wake := by
        simp only [DrainEnv.wake, hz] at hd ⊢
        omega
      refine ⟨DrainCase.ctxDone, ?_, ?_, ?_⟩
      · simp [DrainEnv.doneReady, DrainEnv.ctxReady, hz, hd, hc, select2]
      · rintro hr ⟨w, hw, hlt⟩
        cases hw
        simp only [DrainEnv.wake, hz] at hd
        omega
      · intro _ _
        rfl

theorem logCloseErr_logs {M : Type} (s : Server M) (err : Option GoError) :
    (logCloseErr s err).stopCh = s.stopCh ∧
    ∃ rep, (logCloseErr s err).logs = s.logs ++ rep ∧
      (err = some GoError.DeadlineExceeded →
        rep = [{ level := Level.warn, msg := "Shutdown timed out" }]) ∧
      (err ≠ some GoError.DeadlineExceeded → ∀ e ∈ rep, e.msg = "Shutdown failed.") := by
  cases err with
  | none => exact ⟨rfl, [], by simp [logCloseErr], by simp, by simp⟩
  | some e =>
    by_cases he : e = GoError.DeadlineExceeded
    · subst he
      exact ⟨rfl, [{ level := Level.warn, msg := "Shutdown timed out" }],
        by simp [logCloseErr, Server.log], by simp, by simp⟩
    · exact ⟨by simp [logCloseErr, he, Server.log],
        [{ level := Level.error, msg := "Shutdown failed." }],
        by simp [logCloseErr, he, Server.log], by simp [he], by simp⟩

theorem shutdown_run {M : Type} (s : Server M) (x : DrainEnv) (k : DrainCase)
    (hs : s.servingCh = true) (ho : s.stopCh = false)
    (hk : select2 DrainCase.done DrainCase.ctxDone (x.doneReady x.wake) (x.ctxReady x.wake)
      x.coin = some k) :
    ∃ t rep, Shutdown s x = .ok t ∧ t.stopCh = true ∧
      reported s t = "Shutting down" :: (rep.map LogEntry.msg ++
        [match k with
         | .done => "Shutdown complete"
         | .ctxDone => "Shutdown timed out"]) ∧
      (x.closeErr = some GoError.DeadlineExceeded →
        rep = [{ level := Level.warn, msg := "Shutdown timed out" }]) ∧
      (x.closeErr ≠ some GoError.DeadlineExceeded → ∀ e ∈ rep, e.msg = "Shutdown failed.") := by
  obtain ⟨hstop, rep, hrep, hde, hne⟩ :=
    logCloseErr_logs ({ s.log .info "Shutting down" with stopCh := true } : Server M) x.closeErr
  simp only [Server.log] at hstop hrep
  cases k with
  | done =>
    refine ⟨(logCloseErr ({ s.log .info "Shutting down" with stopCh := true } : Server M)
      x.closeErr).log .info "Shutdown complete", rep, ?_, ?_, ?_, hde, hne⟩
    · simp [Shutdown, shutdownStop, shutdownDrain, hs, ho, hk, Server.log]
    · simpa [Server.log] using hstop
    · simp [reported, Server.log, hrep]
  | ctxDone =>
    refine ⟨(logCloseErr ({ s.log .info "Shutting down" with stopCh := true } : Server M)
      x.closeErr).log .warn "Shutdown timed out", rep, ?_, ?_, ?_, hde, hne⟩
    · simp [Shutdown, shutdownStop, shutdownDrain, hs, ho, hk, Server.log]
    · simpa [Server.log] using hstop
    · simp [reported, Server.log, hrep]

/-- C8, amended: a Shutdown that finds servingCh closed and stopCh open returns.
If closing the listener returns before the deadline with a result other than
DeadlineExceeded (nil or another error), the outcome is decided by which event comes
first: openClients reaching zero before the deadline gives Shutdown complete and no
Shutdown timed out; the deadline passing before openClients reaches zero (or without
it ever doing so) gives Shutdown timed out and no Shutdown complete.  If closing the
listener returns DeadlineExceeded, Shutdown timed out is reported in any case. -/
theorem C8_shutdown_outcome {M : Type} (s : Server M) (x : DrainEnv)
    (hs : s.servingCh = true) (ho : s.stopCh = false) :
    ∃ t, Shutdown s x = .ok t ∧ t.stopCh = true ∧
      (x.closeErr ≠ some GoError.DeadlineExceeded → x.closeReturn < x.deadline →
        ((∃ z, x.zeroAt = some z ∧ z < x.deadline) →
          "Shutdown complete" ∈ reported s t ∧ "Shutdown timed out" ∉ reported s t) ∧
        ((∀ z, x.zeroAt = some z → x.deadline < z) →
          "Shutdown timed out" ∈ reported s t ∧ "Shutdown complete" ∉ reported s t)) ∧
      (x.closeErr = some GoError.DeadlineExceeded → "Shutdown timed out" ∈ reported s t) := by
  obtain ⟨k, hk, hA, hB⟩ := drain_select x
  obtain ⟨t, rep, hrun, hstop, hrp, hde, hne⟩ := shutdown_run s x k hs ho hk
  have hfail : "Shutdown failed." ≠ "Shutdown timed out" ∧
      "Shutdown failed." ≠ "Shutdown complete" := by decide
  have hdiff : "Shutting down" ≠ "Shutdown timed out" ∧
      "Shutting down" ≠ "Shutdown complete" ∧
      "Shutdown complete" ≠ "Shutdown timed out" := by decide
  refine ⟨t, hrun, hstop, ?_, ?_⟩
  · intro hx hr
    have hrepmsg : ∀ m ∈ rep.map LogEntry.msg, m = "Shutdown failed." := by
      intro m hm
      obtain ⟨e, he, rfl⟩ := List.mem_map.1 hm
      exact hne hx e he
    refine ⟨fun hz => ?_, fun hz => ?_⟩
    · have hkd := hA hr hz
      subst hkd
      rw [hrp]
      refine ⟨by simp, ?_⟩
      intro hmem
      simp only [List.mem_cons, List.mem_append, List.mem_singleton, List.not_mem_nil,
        or_false] at hmem
      rcases hmem with h | h | h
      · exact hdiff.1 h.symm
      · exact hfail.1 (hrepmsg _ h).symm
      · exact hdiff.2.2 h.symm
    · have hkd := hB hr hz
      subst hkd
      rw [hrp]
      refine ⟨by simp, ?_⟩
      intro hmem
      simp only [List.mem_cons, List.mem_append, List.mem_singleton, List.not_mem_nil,
        or_false] at hmem
      rcases hmem with h | h | h
      · exact hdiff.2.1 h.symm
      · exact hfail.2 (hrepmsg _ h).symm
      · exact hdiff.2.2 h
  · intro hx
    rw [hrp, hde hx]
    simp

/-- Witness of C8: the listener closes at once and openClients drains at instant 4 of 10. -/
theorem C8_witness :
    ∃ t, Shutdown exampleServing exampleCleanDrain = .ok t ∧
      "Shutdown complete" ∈ reported exampleServing t ∧
      "Shutdown timed out" ∉ reported exampleServing t := by
  obtain ⟨t, hrun, -, hfirst, -⟩ := C8_shutdown_outcome exampleServing exampleCleanDrain rfl rfl
  exact ⟨t, hrun, (hfirst (by decide) (by decide)).1 ⟨4, rfl, by decide⟩⟩

/-- C10, as stated, fails: after serve, one successful upgrade, Shutdown and the
watcher taking the stop case, openClients is back at zero and the connection has been
deregistered once, while its receive loop has not exited. -/
theorem C10_counterexample :
    exec exampleEnv (New "") exampleEvents = .ok exampleStopped ∧
    Reachable exampleEnv exampleStopped ∧
    exampleStopped.openClients = 0 ∧
    (∃ c ∈ exampleStopped.conns, c.doneCalls = 1 ∧ c.loopExited = false) ∧
    ¬ (∀ s : Server Nat, Reachable exampleEnv s → s.openClients = 0 →
        ∀ c ∈ s.conns, c.loopExited = true) := by
  have hr : Reachable exampleEnv exampleStopped :=
    reachable_exec exampleEnv exampleEvents (New "") exampleStopped (Reachable.init "") rfl
  refine ⟨rfl, hr, by decide, by decide, ?_⟩
  intro hall
  have := hall exampleStopped hr (by decide)
  revert this
  decide

/-- C10, amended: in every reachable state openClients counts exactly the connections
whose watcher has not finished.  A failed upgrade registers nothing and a successful
one registers one connection; each connection is deregistered at most once, and
exactly when its watcher finishes, which happens only after its receive loop has
exited or after the watcher has closed the socket; hence whenever openClients is zero,
every connection has its receive loop exited or its socket closed by its watcher. -/
theorem C10_tracker_counts_unfinished_watchers {S W M : Type} (E : Env S W M)
    (s : Server M) (h : Reachable E s) :
    s.openClients = activeWatchers s.conns ∧
    (∀ c ∈ s.conns, c.doneCalls ≤ 1 ∧ (c.doneCalls = 1 ↔ c.watcherExited = true) ∧
      (c.watcherExited = true → c.loopExited = true ∨ c.closed = true)) ∧
    (s.openClients = 0 → ∀ c ∈ s.conns, c.loopExited = true ∨ c.closed = true) ∧
    (∀ r, (handlerEnter E s r false).1.openClients = s.openClients ∧
      (handlerEnter E s r false).1.conns = s.conns) ∧
    (∀ r, E.IsKubeletProbe r = false →
      (handlerEnter E s r true).1.openClients = s.openClients + 1 ∧
      (handlerEnter E s r true).1.conns = s.conns ++ [Conn.fresh]) := by
  obtain ⟨-, h2, h3⟩ := inv_reachable E s h
  refine ⟨h2, ?_, ?_, ?_, ?_⟩
  · intro c hc
    obtain ⟨c1, -, c3⟩ := h3 c hc
    cases hw : c.watcherExited
    · simp [hw] at c1
      simp [c1]
    · simp [hw] at c1 c3
      simp [c1]
      exact c3
  · intro h0 c hc
    rw [h2] at h0
    exact (h3 c hc).2.2 (activeWatchers_zero s.conns h0 c hc)
  · intro r
    cases hp : E.IsKubeletProbe r <;> simp [handlerEnter, handleHealthz, hp, Server.log]
  · intro r hp
    obtain ⟨-, hcn, -, hoc⟩ := handlerEnter_upgraded E s r hp
    exact ⟨hoc, hcn⟩

/-- Witness of C10: the state in which the watcher has answered the stop signal. -/
theorem C10_witness :
    exampleStopped.openClients = activeWatchers exampleStopped.conns ∧
    (∀ c ∈ exampleStopped.conns, c.doneCalls ≤ 1 ∧
      (c.doneCalls = 1 ↔ c.watcherExited = true) ∧
      (c.watcherExited = true → c.loopExited = true ∨ c.closed = true)) ∧
    (∀ c ∈ exampleStopped.conns, c.loopExited = true ∨ c.closed = true) :=
  have h := C10_tracker_counts_unfinished_watchers exampleEnv exampleStopped
    (reachable_exec exampleEnv exampleEvents (New "") exampleStopped (Reachable.init "") rfl)
  ⟨h.1, h.2.1, h.2.2.1 (by decide)⟩

end Statserver
